import Mathlib

/-!
Shallow embedding of the geofenced attendance / patrol-checkpoint subsystem of
`src/backend/server.py` (FastAPI + Mongo document store).

Modelling conventions:
* The Mongo collections are lists of typed records; `find_one` is `List.find?`
  (Mongo natural order = insertion order for these collections), `insert_one`
  appends, and `update_one` with a `$set` replaces the first matching record.
* ISO-8601 timestamp strings are modelled as rational numbers of seconds since
  the epoch (the code only parses them back with `fromisoformat` and subtracts);
  calendar-day strings (`strftime("%Y-%m-%d")`) stay opaque `String`s.  The
  current instant is passed in as an explicit `now` (and `today`) parameter.
* Python floats are modelled as `ℚ`; `round(x)` / `round(x, 2)` / `int(x)` are
  `pyRound` / `pyRound2` / `pyInt` below.
* `haversine_distance` computes with `math.sin`/`cos`/`atan2`, which have no
  exact rational embedding; every operation that calls it is parameterised over
  the distance function `hav : ℚ → ℚ → ℚ → ℚ → ℚ` (same argument order as the
  source: `lat1 lon1 lat2 lon2`).  All theorems hold for an arbitrary `hav`,
  hence in particular for the real haversine.
* Generated UUIDs are passed in as explicit `newId` parameters; the base64 PNG
  QR image is abstracted to the payload string it encodes.
* Record fields not read or written by any modelled endpoint (pay details,
  photos on check-ins, job scheduling fields, ...) are omitted.
-/

namespace RSG

/-- Python's builtin `round` on a rational: round half to even (banker's
rounding), returning an integer. -/
def pyRound (q : ℚ) : ℤ :=
  let f := ⌊q⌋
  let frac := q - (f : ℚ)
  if frac < 1/2 then f
  else if 1/2 < frac then f + 1
  else if f % 2 = 0 then f else f + 1

/-- Python's `round(x, 2)`: round to two decimal places, half to even. -/
def pyRound2 (q : ℚ) : ℚ := (pyRound (q * 100) : ℚ) / 100

/-- Python's `int()` truncation toward zero on a rational. -/
def pyInt (q : ℚ) : ℤ := if 0 ≤ q then ⌊q⌋ else ⌈q⌉

/-- Python's `a or b` on optional strings: `None` and the empty string are
falsy (used for `request.notes or entry.get('notes')`). -/
def pyOrStr (a b : Option String) : Option String :=
  match a with
  | some s => if s == "" then b else some s
  | none => b

/-- Whether an `Except` result is a success. -/
def isOkB {ε α : Type} : Except ε α → Bool
  | .ok _ => true
  | .error _ => false

/-- Replace the first element satisfying `p` (Mongo `update_one` semantics). -/
def updateFirst {α : Type} (p : α → Bool) (f : α → α) : List α → List α
  | [] => []
  | x :: xs => if p x then f x :: xs else x :: updateFirst p f xs

/-- `MAX_CLOCK_DISTANCE_METERS = 500` (server.py line 289). -/
def MAX_CLOCK_DISTANCE_METERS : ℚ := 500

-- ========== Data model ==========

/-- Employee document (fields read by the modelled endpoints). -/
structure Employee where
  id : String
  name : String
deriving DecidableEq

/-- Entry of a job's `assigned_employees` list. -/
structure AssignedEmployee where
  employee_id : String
  employee_name : String
  position : String
  phone : Option String
deriving DecidableEq

/-- Job document (fields read by the clock-in/out endpoints).  `latitude`,
`longitude` and `name` are optional keys read with `.get`, `require_location`
is read with `.get('require_location', False)`. -/
structure Job where
  id : String
  name : Option String
  require_location : Bool
  latitude : Option ℚ
  longitude : Option ℚ
  assigned_employees : List AssignedEmployee
deriving DecidableEq

/-- A `db.timeclock` document, as written by `staff_clock_in` /
`staff_clock_out`. -/
structure TimeclockEntry where
  id : String
  employee_id : String
  employee_name : String
  clock_in : ℚ
  clock_out : Option ℚ
  date : String
  hours_worked : Option ℚ
  job_id : String
  job_name : Option String
  notes : Option String
  clock_in_latitude : Option ℚ
  clock_in_longitude : Option ℚ
  clock_out_latitude : Option ℚ
  clock_out_longitude : Option ℚ
  location_verified : Bool
deriving DecidableEq

/-- Body of `POST /staff/{employee_id}/clock-in`. -/
structure ClockInRequest where
  job_id : String
  latitude : Option ℚ
  longitude : Option ℚ
  notes : Option String
deriving DecidableEq

/-- Body of `POST /staff/{employee_id}/clock-out`. -/
structure ClockOutRequest where
  latitude : Option ℚ
  longitude : Option ℚ
  notes : Option String
deriving DecidableEq

/-- A checkpoint question (pydantic `CheckpointQuestion`). -/
structure CheckpointQuestion where
  id : String
  question : String
  question_type : String
  options : List String
  is_mandatory : Bool
  is_random : Bool
deriving DecidableEq

/-- A `db.checkpoints` document.  `radius_meters` and
`check_frequency_minutes` are modelled as optional because readers use
`.get('radius_meters', 50)` / `.get('check_frequency_minutes', 60)`; the
creation path always stores them. -/
structure CheckpointDoc where
  id : String
  name : String
  description : Option String
  site_id : Option String
  site_name : Option String
  latitude : ℚ
  longitude : ℚ
  radius_meters : Option ℤ
  check_frequency_minutes : Option ℤ
  qr_code : Option String
  questions : List CheckpointQuestion
  is_active : Bool
  created_at : ℚ
  updated_at : Option ℚ
deriving DecidableEq

/-- Body of `POST /checkpoints` (pydantic `CheckpointCreate`; the pydantic
defaults `radius_meters = 50`, `check_frequency_minutes = 60` are applied at
request parsing, so the fields are plain values here). -/
structure CheckpointCreate where
  name : String
  description : Option String
  site_id : Option String
  site_name : Option String
  latitude : ℚ
  longitude : ℚ
  radius_meters : ℤ
  check_frequency_minutes : ℤ
  questions : List CheckpointQuestion
deriving DecidableEq

/-- A `db.patrol_checkins` document.  Answer dicts are opaque payloads. -/
structure PatrolCheckInDoc where
  id : String
  checkpoint_id : String
  checkpoint_name : String
  employee_id : String
  employee_name : String
  job_id : Option String
  job_name : Option String
  latitude : ℚ
  longitude : ℚ
  distance_from_checkpoint : ℚ
  location_verified : Bool
  scanned_qr : Bool
  answers : List String
  notes : Option String
  photos : List String
  checked_at : ℚ
deriving DecidableEq

/-- Body of `POST /patrols/check-in` (pydantic `PatrolCheckInCreate`). -/
structure PatrolCheckInCreate where
  checkpoint_id : String
  latitude : ℚ
  longitude : ℚ
  scanned_qr : Bool
  answers : List String
  notes : Option String
deriving DecidableEq

/-- A `db.defects` document. -/
structure Defect where
  id : String
  title : String
  description : String
  site_id : Option String
  site_name : Option String
  checkpoint_id : Option String
  checkpoint_name : Option String
  location : Option String
  latitude : Option ℚ
  longitude : Option ℚ
  severity : String
  status : String
  photos : List String
  reported_by_id : String
  reported_by_name : String
  assigned_to_id : Option String
  assigned_to_name : Option String
  resolution_notes : Option String
  resolved_at : Option ℚ
  resolved_by_id : Option String
  resolved_by_name : Option String
  created_at : ℚ
  updated_at : Option ℚ
deriving DecidableEq

/-- Body of `PUT /defects/{defect_id}` (pydantic `DefectUpdate`); `none`
models a field absent from the request (`model_dump(exclude_unset=True)`). -/
structure DefectUpdate where
  title : Option String
  description : Option String
  severity : Option String
  status : Option String
  assigned_to_id : Option String
  assigned_to_name : Option String
  resolution_notes : Option String
deriving DecidableEq

/-- The document store: one list per Mongo collection touched by the
modelled endpoints. -/
structure Db where
  employees : List Employee
  jobs : List Job
  timeclock : List TimeclockEntry
  checkpoints : List CheckpointDoc
  patrol_checkins : List PatrolCheckInDoc
  defects : List Defect
deriving DecidableEq

-- ========== Errors ==========

/-- Failure modes of `staff_clock_in`, in source order.  `gpsNotConfigured`
is the "Job requires location verification but GPS not configured" 400
(the spec's `MisconfiguredGeofence`); `outOfRange` carries the `int(distance)`
embedded in the 403 detail message. -/
inductive ClockInError where
  | employeeNotFound
  | jobNotFound
  | notAssigned
  | gpsNotConfigured
  | locationRequired
  | outOfRange (distance_m : ℤ)
  | alreadyClockedIn
deriving DecidableEq

/-- Failure modes of `staff_clock_out`.  `unboundLocalDistance` models the
Python `UnboundLocalError` raised when `if distance > MAX_CLOCK_DISTANCE_METERS`
runs without `distance` ever being assigned (the range check is indented
outside the branch that binds `distance`); it surfaces as an HTTP 500, not as
a validation error. -/
inductive ClockOutError where
  | noActiveClockIn
  | locationRequired
  | outOfRange (distance_m : ℤ)
  | unboundLocalDistance
deriving DecidableEq

/-- Failure modes of `patrol_check_in`, in source order. -/
inductive PatrolError where
  | checkpointNotFound
  | employeeNotFound
deriving DecidableEq

/-- Failure mode of the defect endpoints. -/
inductive DefectError where
  | defectNotFound
deriving DecidableEq

-- ========== Time clock (server.py lines 1146-1268) ==========

/-- The location gate of `staff_clock_in` (lines 1163-1184): on success
returns the `location_verified` flag.  Checks, in source order: job GPS
configured, request coordinates supplied, distance within
`MAX_CLOCK_DISTANCE_METERS`. -/
def clock_in_location_gate (hav : ℚ → ℚ → ℚ → ℚ → ℚ) (job : Job)
    (request : ClockInRequest) : Except ClockInError Bool :=
  if job.require_location then
    match job.latitude, job.longitude with
    | some jlat, some jlng =>
      match request.latitude, request.longitude with
      | some lat, some lng =>
        let distance := hav lat lng jlat jlng
        if distance > MAX_CLOCK_DISTANCE_METERS then
          .error (.outOfRange (pyInt distance))
        else .ok true
      | _, _ => .error .locationRequired
    | _, _ => .error .gpsNotConfigured
  else .ok false

/-- `POST /staff/{employee_id}/clock-in` (lines 1146-1218).  Checks, in
source order: employee exists, job exists, employee assigned to job,
location gate, then "already clocked in today for this job" against the
open-entry query `{employee_id, job_id, date: today, clock_out: None}`;
finally inserts the new entry.  Returns the inserted entry on success,
paired with the post-state. -/
def staff_clock_in (hav : ℚ → ℚ → ℚ → ℚ → ℚ) (db : Db) (employee_id : String)
    (request : ClockInRequest) (now : ℚ) (today : String) (newId : String) :
    Except ClockInError TimeclockEntry × Db :=
  match db.employees.find? (fun e => e.id == employee_id) with
  | none => (.error .employeeNotFound, db)
  | some employee =>
    match db.jobs.find? (fun j => j.id == request.job_id) with
    | none => (.error .jobNotFound, db)
    | some job =>
      if !(job.assigned_employees.map (fun e => e.employee_id)).contains employee_id then
        (.error .notAssigned, db)
      else
        match clock_in_location_gate hav job request with
        | .error e => (.error e, db)
        | .ok location_verified =>
          match db.timeclock.find? (fun t =>
              t.employee_id == employee_id && t.job_id == request.job_id &&
              t.date == today && t.clock_out == none) with
          | some _ => (.error .alreadyClockedIn, db)
          | none =>
            let entry : TimeclockEntry :=
              { id := newId
                employee_id := employee_id
                employee_name := employee.name
                clock_in := now
                clock_out := none
                date := today
                hours_worked := none
                job_id := request.job_id
                job_name := job.name
                notes := request.notes
                clock_in_latitude := request.latitude
                clock_in_longitude := request.longitude
                clock_out_latitude := none
                clock_out_longitude := none
                location_verified := location_verified }
            (.ok entry, { db with timeclock := db.timeclock ++ [entry] })

/-- The location gate of `staff_clock_out` (lines 1234-1251), faithful to the
source's indentation: inside `if job and job.get('require_location')`, the
local `distance` is assigned only when the job has both coordinates and the
request supplies both coordinates, but `if distance > MAX_CLOCK_DISTANCE_METERS`
runs unconditionally — so a gated job with a missing coordinate reaches the
comparison with `distance` unbound (`unboundLocalDistance`). -/
def clock_out_location_gate (hav : ℚ → ℚ → ℚ → ℚ → ℚ) (jobOpt : Option Job)
    (request : ClockOutRequest) : Except ClockOutError Unit :=
  match jobOpt with
  | some job =>
    if job.require_location then
      let distanceOpt : Except ClockOutError (Option ℚ) :=
        match job.latitude, job.longitude with
        | some jlat, some jlng =>
          match request.latitude, request.longitude with
          | some lat, some lng => .ok (some (hav lat lng jlat jlng))
          | _, _ => .error .locationRequired
        | _, _ => .ok none
      match distanceOpt with
      | .error e => .error e
      | .ok none => .error .unboundLocalDistance
      | .ok (some distance) =>
        if distance > MAX_CLOCK_DISTANCE_METERS then
          .error (.outOfRange (pyInt distance))
        else .ok ()
    else .ok ()
  | none => .ok ()

/-- `POST /staff/{employee_id}/clock-out` (lines 1220-1268).  Finds the open
entry `{employee_id, clock_out: None}` (no date or job scoping), re-resolves
the job and applies the location gate, then sets `clock_out`, `hours_worked =
round((now - clock_in) / 3600, 2)` (no sign check), merged notes and the
clock-out coordinates on the entry.  Returns `hours_worked` on success,
paired with the post-state.  (The source also computes `today` on entry but
never uses it.) -/
def staff_clock_out (hav : ℚ → ℚ → ℚ → ℚ → ℚ) (db : Db) (employee_id : String)
    (request : ClockOutRequest) (now : ℚ) : Except ClockOutError ℚ × Db :=
  match db.timeclock.find? (fun t => t.employee_id == employee_id && t.clock_out == none) with
  | none => (.error .noActiveClockIn, db)
  | some entry =>
    let jobOpt := db.jobs.find? (fun j => j.id == entry.job_id)
    match clock_out_location_gate hav jobOpt request with
    | .error e => (.error e, db)
    | .ok _ =>
      let hours_worked := pyRound2 ((now - entry.clock_in) / 3600)
      let updated : TimeclockEntry :=
        { entry with
          clock_out := some now
          hours_worked := some hours_worked
          notes := pyOrStr request.notes entry.notes
          clock_out_latitude := request.latitude
          clock_out_longitude := request.longitude }
      (.ok hours_worked,
       { db with timeclock := updateFirst (fun t => t.id == entry.id) (fun _ => updated) db.timeclock })

-- ========== Checkpoints and patrols (server.py lines 3343-3577) ==========

/-- `POST /checkpoints` (lines 3343-3366): builds the checkpoint from the
request fields with no validation, attaches the QR code (modelled by the
payload string `RSG_CHECKPOINT:{id}` that the generated PNG encodes) and
inserts it.  There is no failure mode. -/
def create_checkpoint (db : Db) (input : CheckpointCreate) (newId : String)
    (now : ℚ) : CheckpointDoc × Db :=
  let checkpoint : CheckpointDoc :=
    { id := newId
      name := input.name
      description := input.description
      site_id := input.site_id
      site_name := input.site_name
      latitude := input.latitude
      longitude := input.longitude
      radius_meters := some input.radius_meters
      check_frequency_minutes := some input.check_frequency_minutes
      qr_code := some ("RSG_CHECKPOINT:" ++ newId)
      questions := input.questions
      is_active := true
      created_at := now
      updated_at := none }
  (checkpoint, { db with checkpoints := db.checkpoints ++ [checkpoint] })

/-- `POST /patrols/check-in` (lines 3418-3463).  Looks up the checkpoint by
id alone (no `is_active` filter), then the employee; computes the haversine
distance, sets `location_verified = (distance <= radius_meters or 50) or
scanned_qr`, and appends the record with `distance_from_checkpoint =
round(distance, 2)`.  Returns the inserted record (the endpoint additionally
derives `verification_status` from `location_verified`). -/
def patrol_check_in (hav : ℚ → ℚ → ℚ → ℚ → ℚ) (db : Db) (employee_id : String)
    (input : PatrolCheckInCreate) (now : ℚ) (newId : String) :
    Except PatrolError PatrolCheckInDoc × Db :=
  match db.checkpoints.find? (fun c => c.id == input.checkpoint_id) with
  | none => (.error .checkpointNotFound, db)
  | some checkpoint =>
    match db.employees.find? (fun e => e.id == employee_id) with
    | none => (.error .employeeNotFound, db)
    | some employee =>
      let distance := hav input.latitude input.longitude checkpoint.latitude checkpoint.longitude
      let location_verified :=
        decide (distance ≤ ((checkpoint.radius_meters.getD 50 : ℤ) : ℚ)) || input.scanned_qr
      let check_in : PatrolCheckInDoc :=
        { id := newId
          checkpoint_id := checkpoint.id
          checkpoint_name := checkpoint.name
          employee_id := employee_id
          employee_name := employee.name
          job_id := checkpoint.site_id
          job_name := checkpoint.site_name
          latitude := input.latitude
          longitude := input.longitude
          distance_from_checkpoint := pyRound2 distance
          location_verified := location_verified
          scanned_qr := input.scanned_qr
          answers := input.answers
          notes := input.notes
          photos := []
          checked_at := now }
      (.ok check_in, { db with patrol_checkins := db.patrol_checkins ++ [check_in] })

/-- `find_one({"checkpoint_id": cpId}, sort=[("checked_at", -1)])`: the
check-in for `cpId` with the greatest `checked_at` (first one wins on ties;
Mongo leaves the tie order unspecified). -/
def latestCheckin (l : List PatrolCheckInDoc) (cpId : String) : Option PatrolCheckInDoc :=
  (l.filter (fun c => c.checkpoint_id == cpId)).foldl
    (fun acc c =>
      match acc with
      | none => some c
      | some b => if c.checked_at > b.checked_at then some c else some b)
    none

/-- One element of the `GET /patrols/missed-checkpoints` response: the
checkpoint document spread together with the report keys (`never_checked` is
only present — i.e. `true` — in the never-checked branch). -/
structure MissedEntry where
  checkpoint : CheckpointDoc
  last_checked : Option ℚ
  minutes_overdue : Option ℤ
  never_checked : Bool
deriving DecidableEq

/-- The checkpoint filter of `GET /patrols/missed-checkpoints`:
`{"is_active": True}` plus `{"site_id": site_id}` when a site is given. -/
def missedFilter (site_id : Option String) (cp : CheckpointDoc) : Bool :=
  cp.is_active &&
    (match site_id with
     | some s => cp.site_id == some s
     | none => true)

/-- `GET /patrols/missed-checkpoints` (lines 3538-3577).  For each active
(optionally site-filtered) checkpoint: with a latest check-in, report it iff
`minutes_since > check_frequency_minutes (or 60)`, with `minutes_overdue =
round(minutes_since - frequency)`; with no check-in at all, report it with
`never_checked = true`. -/
def get_missed_checkpoints (db : Db) (now : ℚ) (site_id : Option String) :
    List MissedEntry :=
  (db.checkpoints.filter (missedFilter site_id)).filterMap (fun cp =>
    match latestCheckin db.patrol_checkins cp.id with
    | some last =>
      let minutes_since := (now - last.checked_at) / 60
      let freq := ((cp.check_frequency_minutes.getD 60 : ℤ) : ℚ)
      if minutes_since > freq then
        some { checkpoint := cp
               last_checked := some last.checked_at
               minutes_overdue := some (pyRound (minutes_since - freq))
               never_checked := false }
      else none
    | none =>
      some { checkpoint := cp
             last_checked := none
             minutes_overdue := none
             never_checked := true })

-- ========== Defects (server.py lines 3647-3687) ==========

/-- `PUT /defects/{defect_id}` (lines 3647-3663): generic `$set` patch of the
request-supplied fields plus `updated_at`; when the patch status is
`"resolved"` and the prior status was not, additionally stamps `resolved_at`
— and only `resolved_at`: the `resolved_by_*` fields are not touched. -/
def update_defect (db : Db) (defect_id : String) (input : DefectUpdate)
    (now : ℚ) : Except DefectError Defect × Db :=
  match db.defects.find? (fun d => d.id == defect_id) with
  | none => (.error .defectNotFound, db)
  | some existing =>
    let stamp := input.status == some "resolved" && !(existing.status == "resolved")
    let updated : Defect :=
      { existing with
        title := input.title.getD existing.title
        description := input.description.getD existing.description
        severity := input.severity.getD existing.severity
        status := input.status.getD existing.status
        assigned_to_id :=
          match input.assigned_to_id with
          | some v => some v
          | none => existing.assigned_to_id
        assigned_to_name :=
          match input.assigned_to_name with
          | some v => some v
          | none => existing.assigned_to_name
        resolution_notes :=
          match input.resolution_notes with
          | some v => some v
          | none => existing.resolution_notes
        updated_at := some now
        resolved_at := if stamp then some now else existing.resolved_at }
    (.ok updated,
     { db with defects := updateFirst (fun d => d.id == defect_id) (fun _ => updated) db.defects })

/-- `POST /defects/{defect_id}/resolve` (lines 3665-3687): sets status
`"resolved"`, the resolution notes, `resolved_at`, `resolved_by_id` and
`resolved_by_name` (the resolver's name, or `"Unknown"` when the resolver id
matches no employee) together, plus `updated_at`. -/
def resolve_defect (db : Db) (defect_id resolver_id : String)
    (resolution_notes : String) (now : ℚ) : Except DefectError Defect × Db :=
  match db.defects.find? (fun d => d.id == defect_id) with
  | none => (.error .defectNotFound, db)
  | some existing =>
    let resolver_name :=
      match db.employees.find? (fun e => e.id == resolver_id) with
      | some r => r.name
      | none => "Unknown"
    let updated : Defect :=
      { existing with
        status := "resolved"
        resolution_notes := some resolution_notes
        resolved_at := some now
        resolved_by_id := some resolver_id
        resolved_by_name := some resolver_name
        updated_at := some now }
    (.ok updated,
     { db with defects := updateFirst (fun d => d.id == defect_id) (fun _ => updated) db.defects })

-- ========== Concrete fixtures for counterexamples and witnesses ==========

/-- A trivial distance function, used where the claim does not depend on the
distance value. -/
def hav0 : ℚ → ℚ → ℚ → ℚ → ℚ := fun _ _ _ _ => 0

/-- A constant distance function returning exactly the clock radius, used to
exercise the boundary case. -/
def hav500 : ℚ → ℚ → ℚ → ℚ → ℚ := fun _ _ _ _ => 500

/-- Example employee. -/
def exEmployee : Employee := { id := "e1", name := "Alice" }

/-- Example job-assignment entry for `exEmployee`. -/
def exAssigned : AssignedEmployee :=
  { employee_id := "e1", employee_name := "Alice", position := "Steward", phone := none }

/-- Example job with `exEmployee` assigned. -/
def exJob (jid : String) (reqLoc : Bool) (lat lng : Option ℚ) : Job :=
  { id := jid, name := some ("Job " ++ jid), require_location := reqLoc
    latitude := lat, longitude := lng, assigned_employees := [exAssigned] }

/-- Example open time-clock entry (clock_out = null) for `exEmployee`. -/
def exOpenEntry (jid date : String) (clockInTime : ℚ) : TimeclockEntry :=
  { id := "t-" ++ jid, employee_id := "e1", employee_name := "Alice"
    clock_in := clockInTime, clock_out := none, date := date, hours_worked := none
    job_id := jid, job_name := some ("Job " ++ jid), notes := none
    clock_in_latitude := none, clock_in_longitude := none
    clock_out_latitude := none, clock_out_longitude := none, location_verified := false }

/-- Store with an open session for employee e1 at job j1, and a second job j2
the employee is also assigned to. -/
def dbC1 : Db :=
  { employees := [exEmployee]
    jobs := [exJob "j1" false none none, exJob "j2" false none none]
    timeclock := [exOpenEntry "j1" "2026-01-01" 0]
    checkpoints := [], patrol_checkins := [], defects := [] }

/-- Clock-in request for job j2. -/
def reqC1 : ClockInRequest := { job_id := "j2", latitude := none, longitude := none, notes := none }

/-- Store with an open session for employee e1 at job j1 dated 2026-01-02. -/
def dbC1w : Db :=
  { employees := [exEmployee]
    jobs := [exJob "j1" false none none]
    timeclock := [exOpenEntry "j1" "2026-01-02" 0]
    checkpoints := [], patrol_checkins := [], defects := [] }

/-- Clock-in request for job j1. -/
def reqC1w : ClockInRequest := { job_id := "j1", latitude := none, longitude := none, notes := none }

-- ========== Claim theorems ==========

/-- Claim C1 is false on the code: employee e1 has an open session (clock_out
= null) at job j1, yet a clock-in at job j2 — same employee, same day —
succeeds and appends a second session instead of failing AlreadyClockedIn,
because the source scopes the "already clocked in" query to `{employee_id,
job_id, date: today, clock_out: None}`. -/
theorem clock_in_open_session_other_job_not_blocked :
    (dbC1.timeclock.any (fun t => t.employee_id == "e1" && t.clock_out == none)) = true
    ∧ isOkB (staff_clock_in hav0 dbC1 "e1" reqC1 3600 "2026-01-01" "n1").1 = true
    ∧ (staff_clock_in hav0 dbC1 "e1" reqC1 3600 "2026-01-01" "n1").2.timeclock.length
        = dbC1.timeclock.length + 1 := by
  decide

/-- Claim C1 (amended): the "already clocked in" precondition is scoped to
(employeeId, jobId, today), not to the employee alone: when the employee and
job resolve, the employee is assigned and the location gate passes, clock-in
fails AlreadyClockedIn iff an open session exists for the same employee at
the same job dated today (open sessions at other jobs or dates do not
block), and when it fails nothing is inserted. -/
theorem clock_in_already_clocked_in_scope
    (hav : ℚ → ℚ → ℚ → ℚ → ℚ) (db : Db) (eid : String) (req : ClockInRequest)
    (now : ℚ) (today newId : String) (emp : Employee) (job : Job) (v : Bool)
    (he : db.employees.find? (fun e => e.id == eid) = some emp)
    (hj : db.jobs.find? (fun j => j.id == req.job_id) = some job)
    (ha : (job.assigned_employees.map (fun e => e.employee_id)).contains eid = true)
    (hg : clock_in_location_gate hav job req = .ok v) :
    ((staff_clock_in hav db eid req now today newId).1 = .error .alreadyClockedIn
      ↔ (db.timeclock.find? (fun t =>
            t.employee_id == eid && t.job_id == req.job_id &&
            t.date == today && t.clock_out == none)).isSome = true)
    ∧ ((db.timeclock.find? (fun t =>
            t.employee_id == eid && t.job_id == req.job_id &&
            t.date == today && t.clock_out == none)).isSome = true
        → (staff_clock_in hav db eid req now today newId).2 = db) := by
  unfold staff_clock_in
  simp only [he, hj, ha, hg, Bool.not_true, Bool.false_eq_true, if_false]
  cases hfind : db.timeclock.find? (fun t =>
      t.employee_id == eid && t.job_id == req.job_id &&
      t.date == today && t.clock_out == none) with
  | none => simp [hfind]
  | some t => simp [hfind]

/-- Witness for `clock_in_already_clocked_in_scope` at a concrete store with
an open session for (e1, j1, today). -/
theorem clock_in_already_clocked_in_scope_witness :
    ((staff_clock_in hav0 dbC1w "e1" reqC1w 3600 "2026-01-02" "n2").1 = .error .alreadyClockedIn
      ↔ (dbC1w.timeclock.find? (fun t =>
            t.employee_id == "e1" && t.job_id == reqC1w.job_id &&
            t.date == "2026-01-02" && t.clock_out == none)).isSome = true)
    ∧ ((dbC1w.timeclock.find? (fun t =>
            t.employee_id == "e1" && t.job_id == reqC1w.job_id &&
            t.date == "2026-01-02" && t.clock_out == none)).isSome = true
        → (staff_clock_in hav0 dbC1w "e1" reqC1w 3600 "2026-01-02" "n2").2 = dbC1w) :=
  clock_in_already_clocked_in_scope hav0 dbC1w "e1" reqC1w 3600 "2026-01-02" "n2"
    exEmployee (exJob "j1" false none none) false rfl rfl rfl rfl

/-- Store whose job j1 requires location verification but has no stored GPS
coordinates, with an open session for employee e1 at j1. -/
def dbC2 : Db :=
  { employees := [exEmployee]
    jobs := [exJob "j1" true none none]
    timeclock := [exOpenEntry "j1" "2026-01-01" 0]
    checkpoints := [], patrol_checkins := [], defects := [] }

/-- Claim C2 at the failing input: for a job with `require_location = true`
and no stored coordinates, clock-in fails with the configuration error (the
spec's MisconfiguredGeofence), but clock-out reaches the misindented
`if distance > MAX_CLOCK_DISTANCE_METERS` with `distance` never assigned and
dies with an UnboundLocalError (HTTP 500) instead. -/
theorem clock_gate_missing_target_evaluation :
    staff_clock_in hav0 dbC2 "e1"
        { job_id := "j1", latitude := none, longitude := none, notes := none }
        3600 "2026-01-01" "n3"
      = (.error .gpsNotConfigured, dbC2)
    ∧ staff_clock_out hav0 dbC2 "e1"
        { latitude := none, longitude := none, notes := none } 3600
      = (.error .unboundLocalDistance, dbC2) :=
  ⟨rfl, rfl⟩

/-- Store with an open session whose clock-in timestamp (7200 s) lies after
the clock-out instant (0 s), at a job without location gating. -/
def dbC3 : Db :=
  { employees := [exEmployee]
    jobs := [exJob "j1" false none none]
    timeclock := [exOpenEntry "j1" "2026-01-01" 7200]
    checkpoints := [], patrol_checkins := [], defects := [] }

/-- Claim C3 is false on the code: a clock-out two hours before the recorded
clock-in succeeds and persists hours_worked = -2 — there is no sign check
and no ClockSkew failure mode. -/
theorem clock_out_persists_negative_hours :
    isOkB (staff_clock_out hav0 dbC3 "e1"
        { latitude := none, longitude := none, notes := none } 0).1 = true
    ∧ ((staff_clock_out hav0 dbC3 "e1"
        { latitude := none, longitude := none, notes := none } 0).2.timeclock.map
          (fun t => t.hours_worked)) = [some (-2)]
    ∧ (-2 : ℚ) < 0 := by
  refine ⟨?_, ?_, by norm_num⟩ <;>
    norm_num [staff_clock_out, clock_out_location_gate, dbC3, exOpenEntry, exJob,
      exEmployee, exAssigned, hav0, isOkB, pyRound2, pyRound, pyOrStr, updateFirst,
      List.find?]

/-- Claim C3 (amended): on success clock-out sets hoursWorked =
round((clockOut − clockIn) / 3600, 2) unconditionally — the value is
persisted with no sign check, so clock skew yields a negative stored
hoursWorked rather than a ClockSkew failure. -/
theorem clock_out_hours_formula
    (hav : ℚ → ℚ → ℚ → ℚ → ℚ) (db : Db) (eid : String) (req : ClockOutRequest)
    (now : ℚ) (entry : TimeclockEntry)
    (hfind : db.timeclock.find? (fun t => t.employee_id == eid && t.clock_out == none)
        = some entry)
    (hg : clock_out_location_gate hav (db.jobs.find? (fun j => j.id == entry.job_id)) req
        = .ok ()) :
    staff_clock_out hav db eid req now
      = (.ok (pyRound2 ((now - entry.clock_in) / 3600)),
         { db with timeclock := (updateFirst (fun t => t.id == entry.id)
             (fun _ => { entry with
                 clock_out := some now
                 hours_worked := some (pyRound2 ((now - entry.clock_in) / 3600))
                 notes := pyOrStr req.notes entry.notes
                 clock_out_latitude := req.latitude
                 clock_out_longitude := req.longitude }) db.timeclock) }) := by
  unfold staff_clock_out
  simp only [hfind, hg]

/-- The open entry of `dbC3`. -/
def entryC3 : TimeclockEntry := exOpenEntry "j1" "2026-01-01" 7200

/-- Witness for `clock_out_hours_formula` at the skewed store `dbC3`:
the closed session carries hours_worked = round2((0 - 7200)/3600) = -2. -/
theorem clock_out_hours_formula_witness :
    staff_clock_out hav0 dbC3 "e1"
        { latitude := none, longitude := none, notes := none } 0
      = (.ok (pyRound2 ((0 - entryC3.clock_in) / 3600)),
         { dbC3 with timeclock := (updateFirst
             (fun t => t.id == entryC3.id)
             (fun _ => { entryC3 with
                 clock_out := some 0
                 hours_worked := some (pyRound2 ((0 - entryC3.clock_in) / 3600))
                 notes := pyOrStr none entryC3.notes
                 clock_out_latitude := none
                 clock_out_longitude := none }) dbC3.timeclock) }) :=
  clock_out_hours_formula hav0 dbC3 "e1"
    { latitude := none, longitude := none, notes := none } 0
    entryC3 rfl rfl

/-- Claim C4: for every patrol check-in that reaches the insert (checkpoint
and employee resolve), the stored record has location_verified true iff the
distance to the checkpoint is within its radius (default 50 m) or the scan
token was presented, and the (2-dp rounded) distance is stored in every
case — including when verification succeeded only via the token. -/
theorem patrol_check_in_verified_iff
    (hav : ℚ → ℚ → ℚ → ℚ → ℚ) (db : Db) (eid : String) (input : PatrolCheckInCreate)
    (now : ℚ) (newId : String) (cp : CheckpointDoc) (emp : Employee)
    (hc : db.checkpoints.find? (fun c => c.id == input.checkpoint_id) = some cp)
    (he : db.employees.find? (fun e => e.id == eid) = some emp) :
    ∃ doc : PatrolCheckInDoc,
      patrol_check_in hav db eid input now newId
        = (.ok doc, { db with patrol_checkins := db.patrol_checkins ++ [doc] })
      ∧ (doc.location_verified = true
          ↔ (hav input.latitude input.longitude cp.latitude cp.longitude
               ≤ ((cp.radius_meters.getD 50 : ℤ) : ℚ) ∨ input.scanned_qr = true))
      ∧ doc.distance_from_checkpoint
          = pyRound2 (hav input.latitude input.longitude cp.latitude cp.longitude) := by
  unfold patrol_check_in
  simp only [hc, he]
  refine ⟨_, rfl, ?_, rfl⟩
  simp [Bool.or_eq_true, decide_eq_true_iff]

/-- A constant distance function returning 1000 m, for the token-bypass
scenario. -/
def hav1000 : ℚ → ℚ → ℚ → ℚ → ℚ := fun _ _ _ _ => 1000

/-- Example active checkpoint with radius 50 m and frequency 60 min. -/
def cpActive : CheckpointDoc :=
  { id := "cp1", name := "Gate", description := none, site_id := none
    site_name := none, latitude := 0, longitude := 0, radius_meters := some 50
    check_frequency_minutes := some 60, qr_code := none, questions := []
    is_active := true, created_at := 0, updated_at := none }

/-- Store with the active checkpoint cp1 and employee e1. -/
def dbC4 : Db :=
  { employees := [exEmployee], jobs := [], timeclock := []
    checkpoints := [cpActive], patrol_checkins := [], defects := [] }

/-- Check-in request presenting the scan token. -/
def inputScan : PatrolCheckInCreate :=
  { checkpoint_id := "cp1", latitude := 3, longitude := 4, scanned_qr := true
    answers := [], notes := none }

/-- Witness for `patrol_check_in_verified_iff`: with the scan token presented
at 1000 m from a 50 m checkpoint, the record is verified and still stores the
distance. -/
theorem patrol_check_in_verified_iff_witness :
    ∃ doc : PatrolCheckInDoc,
      patrol_check_in hav1000 dbC4 "e1" inputScan 0 "p1"
        = (.ok doc, { dbC4 with patrol_checkins := dbC4.patrol_checkins ++ [doc] })
      ∧ (doc.location_verified = true
          ↔ (hav1000 inputScan.latitude inputScan.longitude cpActive.latitude cpActive.longitude
               ≤ ((cpActive.radius_meters.getD 50 : ℤ) : ℚ) ∨ inputScan.scanned_qr = true))
      ∧ doc.distance_from_checkpoint
          = pyRound2 (hav1000 inputScan.latitude inputScan.longitude cpActive.latitude cpActive.longitude) :=
  patrol_check_in_verified_iff hav1000 dbC4 "e1" inputScan 0 "p1" cpActive exEmployee rfl rfl

/-- Claim C5: on a location-gated clock-in with a stored target and submitted
coordinates and no blocking open session, the gate fails with OutOfRange
carrying int(distance) iff the distance exceeds the 500 m radius, and the
clock-in succeeds with a location-verified session iff distance ≤ 500 — the
boundary distance == 500 succeeds (the source tests `distance >
MAX_CLOCK_DISTANCE_METERS`). -/
theorem clock_in_geofence_inclusive
    (hav : ℚ → ℚ → ℚ → ℚ → ℚ) (db : Db) (eid : String) (req : ClockInRequest)
    (now : ℚ) (today newId : String) (emp : Employee) (job : Job)
    (jlat jlng lat lng : ℚ)
    (he : db.employees.find? (fun e => e.id == eid) = some emp)
    (hj : db.jobs.find? (fun j => j.id == req.job_id) = some job)
    (ha : (job.assigned_employees.map (fun e => e.employee_id)).contains eid = true)
    (hreq : job.require_location = true)
    (hjlat : job.latitude = some jlat) (hjlng : job.longitude = some jlng)
    (hlat : req.latitude = some lat) (hlng : req.longitude = some lng)
    (hopen : db.timeclock.find? (fun t =>
        t.employee_id == eid && t.job_id == req.job_id &&
        t.date == today && t.clock_out == none) = none) :
    ((staff_clock_in hav db eid req now today newId).1
        = .error (.outOfRange (pyInt (hav lat lng jlat jlng)))
      ↔ hav lat lng jlat jlng > MAX_CLOCK_DISTANCE_METERS)
    ∧ ((∃ entry, (staff_clock_in hav db eid req now today newId).1 = .ok entry
          ∧ entry.location_verified = true)
      ↔ hav lat lng jlat jlng ≤ MAX_CLOCK_DISTANCE_METERS) := by
  unfold staff_clock_in clock_in_location_gate
  simp only [he, hj, ha, hreq, hjlat, hjlng, hlat, hlng, Bool.not_true,
    Bool.false_eq_true, if_false, if_true]
  by_cases hd : hav lat lng jlat jlng > MAX_CLOCK_DISTANCE_METERS
  · simp [hd, not_le.mpr hd]
  · simp [hd, not_lt.mp hd, hopen]

/-- Gated job with stored GPS coordinates, employee e1 assigned. -/
def jobGPS : Job := exJob "j1" true (some 53.4831) (some (-2.2004))

/-- Store with the gated job and no open sessions. -/
def dbC5 : Db :=
  { employees := [exEmployee], jobs := [jobGPS], timeclock := []
    checkpoints := [], patrol_checkins := [], defects := [] }

/-- Clock-in request with submitted coordinates. -/
def reqC5 : ClockInRequest :=
  { job_id := "j1", latitude := some 53.4835, longitude := some (-2.2), notes := none }

/-- Witness for `clock_in_geofence_inclusive` at the boundary: with measured
distance exactly 500 m the clock-in succeeds, location-verified. -/
theorem clock_in_geofence_inclusive_witness :
    ((staff_clock_in hav500 dbC5 "e1" reqC5 0 "2026-01-01" "n5").1
        = .error (.outOfRange (pyInt (hav500 53.4835 (-2.2) 53.4831 (-2.2004))))
      ↔ hav500 53.4835 (-2.2) 53.4831 (-2.2004) > MAX_CLOCK_DISTANCE_METERS)
    ∧ ((∃ entry, (staff_clock_in hav500 dbC5 "e1" reqC5 0 "2026-01-01" "n5").1 = .ok entry
          ∧ entry.location_verified = true)
      ↔ hav500 53.4835 (-2.2) 53.4831 (-2.2004) ≤ MAX_CLOCK_DISTANCE_METERS) :=
  clock_in_geofence_inclusive hav500 dbC5 "e1" reqC5 0 "2026-01-01" "n5"
    exEmployee jobGPS 53.4831 (-2.2004) 53.4835 (-2.2)
    rfl rfl rfl rfl rfl rfl rfl rfl rfl

/-- Claim C6 (amended): the patrol check-in target must exist by id — when no
checkpoint with the requested id exists at all, the call fails with
CheckpointNotFound and nothing is appended.  (The lookup does not filter on
`is_active`; see `patrol_check_in_accepts_inactive_checkpoint`.) -/
theorem patrol_check_in_missing_checkpoint
    (hav : ℚ → ℚ → ℚ → ℚ → ℚ) (db : Db) (eid : String) (input : PatrolCheckInCreate)
    (now : ℚ) (newId : String)
    (hc : db.checkpoints.find? (fun c => c.id == input.checkpoint_id) = none) :
    patrol_check_in hav db eid input now newId = (.error .checkpointNotFound, db) := by
  unfold patrol_check_in
  simp only [hc]

/-- The empty store. -/
def dbEmpty : Db :=
  { employees := [], jobs := [], timeclock := []
    checkpoints := [], patrol_checkins := [], defects := [] }

/-- Check-in request naming checkpoint cp1. -/
def inputC6 : PatrolCheckInCreate :=
  { checkpoint_id := "cp1", latitude := 0, longitude := 0, scanned_qr := false
    answers := [], notes := none }

/-- Witness for `patrol_check_in_missing_checkpoint` on the empty store. -/
theorem patrol_check_in_missing_checkpoint_witness :
    patrol_check_in hav0 dbEmpty "e1" inputC6 0 "p2" = (.error .checkpointNotFound, dbEmpty) :=
  patrol_check_in_missing_checkpoint hav0 dbEmpty "e1" inputC6 0 "p2" rfl

/-- Soft-deleted checkpoint (is_active = false). -/
def cpInactive : CheckpointDoc := { cpActive with id := "cp2", is_active := false }

/-- Store holding only the soft-deleted checkpoint. -/
def dbC6 : Db :=
  { employees := [exEmployee], jobs := [], timeclock := []
    checkpoints := [cpInactive], patrol_checkins := [], defects := [] }

/-- Check-in request naming the soft-deleted checkpoint cp2. -/
def inputC6b : PatrolCheckInCreate :=
  { checkpoint_id := "cp2", latitude := 0, longitude := 0, scanned_qr := false
    answers := [], notes := none }

/-- Claim C6 is false on the code for soft-deleted checkpoints: the lookup is
by id alone with no `is_active` filter, so a check-in against a deactivated
checkpoint succeeds and a PatrolCheckIn record is appended instead of failing
with CheckpointNotFound. -/
theorem patrol_check_in_accepts_inactive_checkpoint :
    cpInactive.is_active = false
    ∧ isOkB (patrol_check_in hav0 dbC6 "e1" inputC6b 0 "p3").1 = true
    ∧ (patrol_check_in hav0 dbC6 "e1" inputC6b 0 "p3").2.patrol_checkins.length = 1 := by
  refine ⟨rfl, ?_, ?_⟩ <;>
    norm_num [patrol_check_in, dbC6, cpInactive, cpActive, inputC6b, exEmployee, hav0,
      isOkB, pyRound2, pyRound, List.find?]

/-- Claim C7 (amended): `resolve` sets status, resolved_at and the
resolved_by fields together, but a status patch through `update` into
"resolved" auto-stamps only resolved_at and leaves the resolved_by fields
unchanged — the two are not always set together. -/
theorem defect_resolution_stamping
    (db1 db2 : Db) (id1 id2 resolver_id : String) (input : DefectUpdate)
    (notes : String) (now1 now2 : ℚ) (d1 d2 : Defect)
    (h1 : db1.defects.find? (fun d => d.id == id1) = some d1)
    (h2 : db2.defects.find? (fun d => d.id == id2) = some d2) :
    (∃ u, (update_defect db1 id1 input now1).1 = .ok u
        ∧ u.resolved_at = (if (input.status == some "resolved" && !(d1.status == "resolved")) = true
            then some now1 else d1.resolved_at)
        ∧ u.resolved_by_id = d1.resolved_by_id
        ∧ u.resolved_by_name = d1.resolved_by_name)
    ∧ (∃ u, (resolve_defect db2 id2 resolver_id notes now2).1 = .ok u
        ∧ u.status = "resolved" ∧ u.resolved_at = some now2
        ∧ u.resolved_by_id = some resolver_id) := by
  constructor
  · unfold update_defect
    simp only [h1]
    exact ⟨_, rfl, rfl, rfl, rfl⟩
  · unfold resolve_defect
    simp only [h2]
    exact ⟨_, rfl, rfl, rfl, rfl⟩

/-- Open defect with no resolution data. -/
def defectOpen : Defect :=
  { id := "d1", title := "Broken light", description := "desc", site_id := none
    site_name := none, checkpoint_id := none, checkpoint_name := none
    location := none, latitude := none, longitude := none, severity := "medium"
    status := "open", photos := [], reported_by_id := "e1", reported_by_name := "Alice"
    assigned_to_id := none, assigned_to_name := none, resolution_notes := none
    resolved_at := none, resolved_by_id := none, resolved_by_name := none
    created_at := 0, updated_at := none }

/-- Store holding the open defect d1. -/
def dbC7 : Db :=
  { employees := [exEmployee], jobs := [], timeclock := []
    checkpoints := [], patrol_checkins := [], defects := [defectOpen] }

/-- Patch that only moves the status to resolved. -/
def patchResolve : DefectUpdate :=
  { title := none, description := none, severity := none, status := some "resolved"
    assigned_to_id := none, assigned_to_name := none, resolution_notes := none }

/-- Witness for `defect_resolution_stamping` on the open defect d1. -/
theorem defect_resolution_stamping_witness :
    (∃ u, (update_defect dbC7 "d1" patchResolve 100).1 = .ok u
        ∧ u.resolved_at = (if (patchResolve.status == some "resolved" && !(defectOpen.status == "resolved")) = true
            then some 100 else defectOpen.resolved_at)
        ∧ u.resolved_by_id = defectOpen.resolved_by_id
        ∧ u.resolved_by_name = defectOpen.resolved_by_name)
    ∧ (∃ u, (resolve_defect dbC7 "d1" "e1" "fixed" 200).1 = .ok u
        ∧ u.status = "resolved" ∧ u.resolved_at = some 200
        ∧ u.resolved_by_id = some "e1") :=
  defect_resolution_stamping dbC7 dbC7 "d1" "d1" "e1" patchResolve "fixed" 100 200
    defectOpen defectOpen rfl rfl

/-- Claim C7 is false on the code: patching an open defect's status to
"resolved" via update stamps resolved_at = now but leaves resolved_by_id and
resolved_by_name null, so resolvedAt/resolvedBy are not set together on this
path. -/
theorem update_defect_stamps_only_resolved_at :
    ((update_defect dbC7 "d1" patchResolve 100).1.toOption.map
        (fun u => (u.status, u.resolved_at, u.resolved_by_id, u.resolved_by_name)))
      = some ("resolved", some 100, none, none) := by
  decide

/-- Check-in for checkpoint cp1 recorded at t = 0 s. -/
def checkinAt0 : PatrolCheckInDoc :=
  { id := "p0", checkpoint_id := "cp1", checkpoint_name := "Gate"
    employee_id := "e1", employee_name := "Alice", job_id := none, job_name := none
    latitude := 0, longitude := 0, distance_from_checkpoint := 0
    location_verified := true, scanned_qr := false, answers := [], notes := none
    photos := [], checked_at := 0 }

/-- Store with checkpoint cp1 (frequency 60 min) last checked at t = 0. -/
def dbC8 : Db :=
  { employees := [exEmployee], jobs := [], timeclock := []
    checkpoints := [cpActive], patrol_checkins := [checkinAt0], defects := [] }

/-- Claim C8 is false on the code as to the overdue amount: queried 90.5
minutes after the last check-in (frequency 60), the report says 30 minutes
overdue — `round(minutes_since - frequency)` — not the exact difference
30.5; the spec's own t = 90 min scenario, where the difference is whole,
still reports 30. -/
theorem missed_overdue_amount_rounded :
    ((get_missed_checkpoints dbC8 5430 none).map (fun e => e.minutes_overdue)) = [some 30]
    ∧ ¬ ((30 : ℚ) = ((5430 : ℚ) - 0) / 60 - 60)
    ∧ ((get_missed_checkpoints dbC8 5400 none).map (fun e => e.minutes_overdue)) = [some 30] := by
  refine ⟨?_, by norm_num, ?_⟩ <;>
    norm_num [get_missed_checkpoints, missedFilter, latestCheckin, dbC8, cpActive,
      checkinAt0, pyRound, List.filterMap, List.filter, List.foldl]

/-- Claim C8 (amended): missedCheckpoints returns exactly the active
(site-matching) checkpoints that are overdue: one with a latest check-in is
reported iff minutes since that check-in strictly exceed its
checkFrequencyMinutes (default 60), with the overdue amount rounded to the
nearest whole minute (round(minutesSinceLastCheck − checkFrequencyMinutes),
ties to even), and one with no check-ins at all is reported with
never_checked = true and no overdue amount. -/
theorem missed_checkpoints_report
    (db : Db) (now : ℚ) (site_id : Option String) (e : MissedEntry) :
    e ∈ get_missed_checkpoints db now site_id ↔
      (e.checkpoint ∈ db.checkpoints ∧ missedFilter site_id e.checkpoint = true ∧
        ((latestCheckin db.patrol_checkins e.checkpoint.id = none
            ∧ e.last_checked = none ∧ e.minutes_overdue = none ∧ e.never_checked = true)
         ∨ (∃ last, latestCheckin db.patrol_checkins e.checkpoint.id = some last
            ∧ (now - last.checked_at) / 60 > ((e.checkpoint.check_frequency_minutes.getD 60 : ℤ) : ℚ)
            ∧ e.last_checked = some last.checked_at
            ∧ e.minutes_overdue = some (pyRound ((now - last.checked_at) / 60
                - ((e.checkpoint.check_frequency_minutes.getD 60 : ℤ) : ℚ)))
            ∧ e.never_checked = false))) := by
  obtain ⟨ecp, elc, emo, enc⟩ := e
  unfold get_missed_checkpoints
  rw [List.mem_filterMap]
  constructor
  · rintro ⟨cp, hcp, hf⟩
    rw [List.mem_filter] at hcp
    obtain ⟨hmem, hfil⟩ := hcp
    cases hl : latestCheckin db.patrol_checkins cp.id with
    | none =>
      simp only [hl] at hf
      obtain ⟨rfl, rfl, rfl, rfl⟩ : cp = ecp ∧ (none : Option ℚ) = elc
          ∧ (none : Option ℤ) = emo ∧ true = enc := by
        simpa [MissedEntry.mk.injEq, eq_comm] using hf
      exact ⟨hmem, hfil, .inl ⟨hl, rfl, rfl, rfl⟩⟩
    | some last =>
      simp only [hl] at hf
      by_cases hgt : (now - last.checked_at) / 60 > ((cp.check_frequency_minutes.getD 60 : ℤ) : ℚ)
      · rw [if_pos hgt] at hf
        obtain ⟨rfl, rfl, rfl, rfl⟩ : cp = ecp ∧ (some last.checked_at : Option ℚ) = elc
            ∧ (some (pyRound ((now - last.checked_at) / 60
                - ((cp.check_frequency_minutes.getD 60 : ℤ) : ℚ))) : Option ℤ) = emo
            ∧ false = enc := by
          simpa [MissedEntry.mk.injEq, eq_comm] using hf
        exact ⟨hmem, hfil, .inr ⟨last, hl, hgt, rfl, rfl, rfl⟩⟩
      · rw [if_neg hgt] at hf
        exact absurd hf (by simp)
  · rintro ⟨hmem, hfil, hcase⟩
    refine ⟨ecp, List.mem_filter.mpr ⟨hmem, hfil⟩, ?_⟩
    rcases hcase with ⟨hl, hlc, hmo, hnc⟩ | ⟨last, hl, hgt, hlc, hmo, hnc⟩
    · simp only at hl hlc hmo hnc
      simp only [hl]
      simp [hlc, hmo, hnc]
    · simp only at hl hgt hlc hmo hnc
      simp only [hl]
      rw [if_pos hgt]
      simp [hlc, hmo, hnc]

/-- Claim C9 (amended): checkpoint creation performs no validation — the
submitted radius_meters and check_frequency_minutes are stored verbatim (the
pydantic defaults 50/60 apply only when the fields are omitted), and the new
checkpoint is appended unconditionally, so non-positive values can be
persisted. -/
theorem create_checkpoint_stores_verbatim
    (db : Db) (input : CheckpointCreate) (newId : String) (now : ℚ) :
    (create_checkpoint db input newId now).1.radius_meters = some input.radius_meters
    ∧ (create_checkpoint db input newId now).1.check_frequency_minutes
        = some input.check_frequency_minutes
    ∧ (create_checkpoint db input newId now).2.checkpoints
        = db.checkpoints ++ [(create_checkpoint db input newId now).1] :=
  ⟨rfl, rfl, rfl⟩

/-- Creation request with a negative radius and a zero frequency. -/
def badCreate : CheckpointCreate :=
  { name := "Gate", description := none, site_id := none, site_name := none
    latitude := 0, longitude := 0, radius_meters := -5
    check_frequency_minutes := 0, questions := [] }

/-- Claim C9 is false on the code: creating a checkpoint with radius_meters
= -5 and check_frequency_minutes = 0 is accepted and stored, violating the
radiusMeters > 0 and checkFrequencyMinutes > 0 invariant. -/
theorem create_checkpoint_accepts_nonpositive :
    ((create_checkpoint dbEmpty badCreate "cp9" 0).2.checkpoints.map
        (fun c => (c.radius_meters, c.check_frequency_minutes)))
      = [(some (-5), some 0)]
    ∧ ¬ ((-5 : ℤ) > 0) := by
  decide

/-- Claim C10: a patrol check-in whose employeeId resolves to no employee
record fails with the employee-not-found error and appends nothing; the
result is the same for every distance function, i.e. the failure happens
before any distance computation. -/
theorem patrol_check_in_unknown_employee
    (db : Db) (eid : String) (input : PatrolCheckInCreate) (cp : CheckpointDoc)
    (hc : db.checkpoints.find? (fun c => c.id == input.checkpoint_id) = some cp)
    (he : db.employees.find? (fun e => e.id == eid) = none) :
    ∀ (hav : ℚ → ℚ → ℚ → ℚ → ℚ) (now : ℚ) (newId : String),
      patrol_check_in hav db eid input now newId = (.error .employeeNotFound, db) := by
  intro hav now newId
  unfold patrol_check_in
  simp only [hc, he]

/-- Store with checkpoint cp1 and no employees at all. -/
def dbC10 : Db :=
  { employees := [], jobs := [], timeclock := []
    checkpoints := [cpActive], patrol_checkins := [], defects := [] }

/-- Witness for `patrol_check_in_unknown_employee` at a store with no
employee named "ghost". -/
theorem patrol_check_in_unknown_employee_witness :
    patrol_check_in hav0 dbC10 "ghost" inputC6 0 "p4" = (.error .employeeNotFound, dbC10) :=
  patrol_check_in_unknown_employee dbC10 "ghost" inputC6 cpActive rfl rfl hav0 0 "p4"

end RSG
